import Mathlib

/-!
Verification of the OTP authentication / session-management core of the
Smart Crop Advisory backend (`src/main.py`, `src/schemas.py`).

Time is modelled as `Nat` seconds (the code compares `datetime` values with
`<`, which is order-isomorphic to the comparison on seconds); `timedelta
(minutes=5)` becomes `5 * 60` and `timedelta(days=7)` becomes `7 * 24 * 3600`.
The MongoDB collections `otprequest`, `farmer` and `session` are modelled as
lists of records in insertion order.  Random values (the 6-digit OTP and the
URL-safe session token) are taken as parameters of the operations.
-/

set_option autoImplicit false

namespace SmartCrop

/-- An `otprequest` document (`OTPRequest` in `schemas.py`).  `expires_at` is
`Option Nat`: the guard `latest.get("expires_at")` in `verify_otp` tolerates a
missing or null expiry, so the model keeps the field optional.  `created_at`
is stamped at insertion time (see `create_document`). -/
structure OTPChallenge where
  farmer_id : Option String
  phone : String
  otp : String
  expires_at : Option Nat
  verified : Bool
  created_at : Nat
deriving Repr, DecidableEq

/-- A `session` document (`Session` in `schemas.py`).  As with challenges,
`require_session` reads `expires_at` with `.get`, so the field is optional. -/
structure SessionDoc where
  farmer_id : String
  token : String
  created_at : Nat
  expires_at : Option Nat
deriving Repr, DecidableEq

/-- A `farmer` document (`Farmer` in `schemas.py`).  `updated_at` is absent
from the schema but written by the `$set` of `verify_otp`, so it appears here
as an optional field that creation leaves unset. -/
structure FarmerDoc where
  farmer_id : String
  name : Option String
  phone : String
  aadhaar : Option String
  language : Option String
  location : Option String
  crops : List String
  soil_type : Option String
  updated_at : Option Nat
deriving Repr, DecidableEq

/-- The persistent state: the three collections touched by the auth core. -/
structure DB where
  otprequests : List OTPChallenge
  farmers : List FarmerDoc
  sessions : List SessionDoc
deriving Repr, DecidableEq

/-- The client-visible failures raised by the auth core
(`HTTPException`s in `main.py`). -/
inductive ApiError where
  /-- 401 "Invalid token" (`Unauthenticated`). -/
  | invalidToken
  /-- 401 "Session expired" (`SessionExpired`). -/
  | sessionExpired
  /-- 400 "Invalid OTP" (`InvalidCredential`). -/
  | invalidOtp
  /-- 400 "OTP expired" (`CredentialExpired`). -/
  | otpExpired
deriving Repr, DecidableEq

/-- Request body of `POST /auth/request-otp` (`OTPStartRequest`). -/
structure OTPStartRequest where
  phone : String
  farmer_id : Option String
deriving Repr, DecidableEq

/-- Request body of `POST /auth/verify-otp` (`OTPVerifyRequest`). -/
structure OTPVerifyRequest where
  phone : String
  otp : String
  farmer_id : Option String
  aadhaar : Option String
  language : Option String
  name : Option String
  location : Option String
deriving Repr, DecidableEq

/-- Response body of `POST /auth/verify-otp` (`TokenResponse`). -/
structure TokenResponse where
  token : String
  farmer_id : String
  expires_in : Nat
deriving Repr, DecidableEq

/-- Response body of `POST /auth/request-otp`. -/
structure RequestOtpResponse where
  message : String
  phone : String
  demo_otp : String
deriving Repr, DecidableEq

/-- Modelled from the spec: `create_document` lives in the repository's
`database` module, which is not under `src/`.  Per the spec it "persists a
new OTP Challenge record (never overwrites a prior one)" and each record
carries a creation timestamp, so insertion is modelled as appending the
record (already stamped with `created_at` by the caller) in arrival order. -/
def create_document {α : Type} (coll : List α) (doc : α) : List α :=
  coll ++ [doc]

/-- Python `a or b` on an `Optional[str]`: `None` and `""` are falsy. -/
def pyOrStr : Option String → String → String
  | some s, dflt => if s = "" then dflt else s
  | none, dflt => dflt

/-- Python `s.replace(a, b)` for one-character patterns. -/
def pyReplace (s : List Char) (a b : Char) : List Char :=
  s.map (fun c => if c = a then b else c)

/-- `payload.phone[:-4].replace("0", "*").replace("1", "*") + payload.phone[-4:]`
from `request_otp`.  Python slices with truncating `Nat` subtraction: for a
string shorter than 4 characters `s[:-4]` is empty and `s[-4:]` is `s`. -/
def maskPhone (phone : String) : String :=
  let n := phone.data.length
  ⟨pyReplace (pyReplace (phone.data.take (n - 4)) '0' '*') '1' '*' ++
    phone.data.drop (n - 4)⟩

/-- The guard `doc.get("expires_at") and doc["expires_at"] < now_utc()`:
a present expiry (a `datetime` is always truthy) triggers expiry exactly when
it is strictly before `now`; a missing expiry never does. -/
def isExpired : Option Nat → Nat → Bool
  | some e, now => decide (e < now)
  | none, _ => false

/-- One step of the scan behind
`find_one({"phone": phone}, sort=[("created_at", -1)])`: keep the candidate
with the larger `created_at`.  MongoDB leaves the order of equal sort keys
unspecified (the spec calls it implementation-defined but deterministic); this
model resolves ties towards the later-inserted record. -/
def pickLatest (phone : String) (acc : Option OTPChallenge) (c : OTPChallenge) :
    Option OTPChallenge :=
  if c.phone = phone then
    match acc with
    | none => some c
    | some b => if b.created_at ≤ c.created_at then some c else some b
  else acc

/-- The most recently created challenge for a phone number, as resolved by
`verify_otp`. -/
def latest_for_phone (phone : String) (recs : List OTPChallenge) :
    Option OTPChallenge :=
  recs.foldl (pickLatest phone) none

/-- `sessions.find_one({"token": token})`: first match in insertion order. -/
def findSession (sessions : List SessionDoc) (tok : String) : Option SessionDoc :=
  sessions.find? (fun s => s.token == tok)

/-- `farmers.find_one({"farmer_id": fid})`: first match in insertion order. -/
def findFarmer (farmers : List FarmerDoc) (fid : String) : Option FarmerDoc :=
  farmers.find? (fun f => f.farmer_id == fid)

/-- The `$set` document of `farmers.update_one` in `verify_otp`: overwrites
phone, aadhaar, language, name, location (even with null) and stamps
`updated_at`; `farmer_id`, `crops` and `soil_type` are untouched. -/
def setFarmerFields (p : OTPVerifyRequest) (now : Nat) (f : FarmerDoc) : FarmerDoc :=
  { f with phone := p.phone, aadhaar := p.aadhaar, language := p.language,
           name := p.name, location := p.location, updated_at := some now }

/-- `update_one` updates the first document matching the filter. -/
def updateFirstFarmer : List FarmerDoc → String → (FarmerDoc → FarmerDoc) →
    List FarmerDoc
  | [], _, _ => []
  | f :: t, fid, g =>
    if f.farmer_id = fid then g f :: t else f :: updateFirstFarmer t fid g

/-- The fresh `Farmer(...)` built on the create branch of the upsert:
pydantic defaults give `crops = []` and `soil_type = None`; no `updated_at`
is written. -/
def newFarmer (p : OTPVerifyRequest) (fid : String) : FarmerDoc :=
  { farmer_id := fid, name := p.name, phone := p.phone, aadhaar := p.aadhaar,
    language := p.language, location := p.location, crops := [],
    soil_type := none, updated_at := none }

/-- The farmer-profile upsert of `verify_otp` (`main.py` lines 110-118):
create a fresh profile when none exists for `fid`, otherwise overwrite the
first matching document's supplied fields. -/
def upsert_farmer (farmers : List FarmerDoc) (p : OTPVerifyRequest)
    (fid : String) (now : Nat) : List FarmerDoc :=
  match findFarmer farmers fid with
  | none => create_document farmers (newFarmer p fid)
  | some _ => updateFirstFarmer farmers fid (setFarmerFields p now)

/-- `POST /auth/request-otp` (`request_otp` in `main.py`).  The random
6-digit code `otp` and the current time `now` are parameters. -/
def request_otp (db : DB) (payload : OTPStartRequest) (otp : String)
    (now : Nat) : DB × RequestOtpResponse :=
  let expires := now + 5 * 60
  let otp_doc : OTPChallenge :=
    { farmer_id := payload.farmer_id, phone := payload.phone, otp := otp,
      expires_at := some expires, verified := false, created_at := now }
  ({ db with otprequests := create_document db.otprequests otp_doc },
   { message := "OTP sent", phone := maskPhone payload.phone, demo_otp := otp })

/-- `POST /auth/verify-otp` (`verify_otp` in `main.py`).  The random session
token `tok` and the current time `now` are parameters.  Returns the state
after the request together with the result; an `HTTPException` raised before
any write leaves the state unchanged. -/
def verify_otp (db : DB) (payload : OTPVerifyRequest) (tok : String)
    (now : Nat) : DB × Except ApiError TokenResponse :=
  match latest_for_phone payload.phone db.otprequests with
  | none => (db, Except.error ApiError.invalidOtp)
  | some latest =>
    if latest.otp ≠ payload.otp then (db, Except.error ApiError.invalidOtp)
    else if isExpired latest.expires_at now then
      (db, Except.error ApiError.otpExpired)
    else
      let fid := pyOrStr payload.farmer_id payload.phone
      let farmers1 := upsert_farmer db.farmers payload fid now
      let sess : SessionDoc :=
        { farmer_id := fid, token := tok, created_at := now,
          expires_at := some (now + 7 * 24 * 3600) }
      ({ db with farmers := farmers1,
                 sessions := create_document db.sessions sess },
       Except.ok { token := tok, farmer_id := fid, expires_in := 7 * 24 * 3600 })

/-- The `require_session` dependency of `main.py`: resolves a bearer token to
the bound `farmer_id`, raising 401 on a missing or expired session. -/
def require_session (db : DB) (tok : String) (now : Nat) :
    Except ApiError String :=
  match findSession db.sessions tok with
  | none => Except.error ApiError.invalidToken
  | some s =>
    if isExpired s.expires_at now then Except.error ApiError.sessionExpired
    else Except.ok s.farmer_id

/-- Response of `POST /disease-detect`. -/
structure DiseaseDetectResponse where
  crop : Option String
  diagnosis : String
  treatment : String
deriving Repr, DecidableEq

/-- `POST /disease-detect` (`disease_detect` in `main.py`).  `content` is the
uploaded file's bytes.  The handler takes `token` as a plain form field and
never uses it — in particular it never calls `require_session`.  The float
comparison `sum(content[:5000]) % 100 / 100 > 0.6` agrees with the integer
comparison `m > 60` (and `> 0.3` with `m > 30`) because `m / 100.0` and the
literal round to the same double when `m` is a multiple of 10 around the
thresholds, and otherwise the values differ by far more than the rounding
error. -/
def disease_detect (content : List Nat) (crop : Option String)
    (token : Option String) : DiseaseDetectResponse :=
  let _ := token
  let size := content.length
  if size < 10000 then
    { crop := crop,
      diagnosis := "Low confidence: image too small. Possible nutrient deficiency.",
      treatment := "Apply balanced micronutrient spray; retake a clearer photo." }
  else
    let m := ((content.take 5000).foldl (· + ·) 0) % 100
    if 60 < m then
      { crop := crop, diagnosis := "Likely Leaf Blight",
        treatment := "Remove affected leaves, apply recommended fungicide (mancozeb)." }
    else if 30 < m then
      { crop := crop, diagnosis := "Possible Powdery Mildew",
        treatment := "Improve airflow, apply sulfur-based spray during evening." }
    else
      { crop := crop, diagnosis := "Aphid/Pest infestation suspected",
        treatment := "Use neem oil or appropriate insecticide; monitor sticky traps." }

/-- The canonical farmer identifier in the spec's words: "the supplied
identifier if non-empty, otherwise the phone number". -/
def canonicalFid : Option String → String → String
  | some s, phone => if s ≠ "" then s else phone
  | none, phone => phone

/-! ## Concrete records used to instantiate the theorems below -/

def sessC10 : SessionDoc :=
  { farmer_id := "F", token := "tok", created_at := 0, expires_at := none }

def dbC10a : DB := { otprequests := [], farmers := [], sessions := [sessC10] }

def chalC10 : OTPChallenge :=
  { farmer_id := none, phone := "p", otp := "123456", expires_at := none,
    verified := false, created_at := 0 }

def dbC10b : DB := { otprequests := [chalC10], farmers := [], sessions := [] }

def payC10 : OTPVerifyRequest :=
  { phone := "p", otp := "123456", farmer_id := none, aadhaar := none,
    language := some "en", name := none, location := none }

def chalC5 : OTPChallenge :=
  { farmer_id := none, phone := "9876543210", otp := "483920",
    expires_at := some 10, verified := false, created_at := 0 }

def dbC5 : DB := { otprequests := [chalC5], farmers := [], sessions := [] }

def payC5 : OTPVerifyRequest :=
  { phone := "9876543210", otp := "000000", farmer_id := none, aadhaar := none,
    language := some "en", name := none, location := none }

def chalC3 : OTPChallenge :=
  { farmer_id := none, phone := "p3", otp := "483920", expires_at := some 100,
    verified := false, created_at := 0 }

def dbC3 : DB := { otprequests := [chalC3], farmers := [], sessions := [] }

def payC3 : OTPVerifyRequest :=
  { phone := "p3", otp := "483920", farmer_id := none, aadhaar := none,
    language := some "en", name := none, location := none }

def sessC4 : SessionDoc :=
  { farmer_id := "F4", token := "tok4", created_at := 0, expires_at := some 100 }

def dbC4 : DB := { otprequests := [], farmers := [], sessions := [sessC4] }

def dbC1 : DB := { otprequests := [], farmers := [], sessions := [] }

def dbC2 : DB := { otprequests := [], farmers := [], sessions := [] }

def dbC6 : DB := { otprequests := [], farmers := [], sessions := [] }

def chalC7 : OTPChallenge :=
  { farmer_id := none, phone := "97", otp := "765432", expires_at := some 100,
    verified := false, created_at := 0 }

def dbC7 : DB := { otprequests := [chalC7], farmers := [], sessions := [] }

def payC7bad : OTPVerifyRequest :=
  { phone := "97", otp := "000000", farmer_id := none, aadhaar := none,
    language := some "en", name := none, location := none }

def payC7good : OTPVerifyRequest :=
  { phone := "97", otp := "765432", farmer_id := none, aadhaar := none,
    language := some "en", name := none, location := none }

def respC7 : TokenResponse :=
  { token := "t7", farmer_id := "97", expires_in := 604800 }

def chalC8 : OTPChallenge :=
  { farmer_id := none, phone := "98", otp := "555555", expires_at := none,
    verified := false, created_at := 0 }

def dbC8 : DB := { otprequests := [chalC8], farmers := [], sessions := [] }

def payC8a : OTPVerifyRequest :=
  { phone := "98", otp := "555555", farmer_id := some "F8",
    aadhaar := some "A1", language := some "hi", name := some "N1",
    location := some "L1" }

def payC8b : OTPVerifyRequest :=
  { phone := "98", otp := "555555", farmer_id := some "F8", aadhaar := none,
    language := none, name := none, location := some "L2" }

def respC8a : TokenResponse :=
  { token := "ta", farmer_id := "F8", expires_in := 604800 }

def respC8b : TokenResponse :=
  { token := "tb", farmer_id := "F8", expires_in := 604800 }

/-! ## General lemmas about the store operations -/

lemma dropLen_append {α : Type} (l1 l2 : List α) (n : Nat)
    (h : l1.length = n) : (l1 ++ l2).drop n = l2 := by
  subst h
  exact List.drop_left l1 l2

lemma takeLen_append {α : Type} (l1 l2 : List α) (n : Nat)
    (h : l1.length = n) : (l1 ++ l2).take n = l1 := by
  subst h
  exact List.take_left l1 l2

lemma latest_aux (phone : String) :
    ∀ (l : List OTPChallenge) (acc : Option OTPChallenge) (b : OTPChallenge),
      l.foldl (pickLatest phone) acc = some b →
      acc = some b ∨ (b ∈ l ∧ b.phone = phone) := by
  intro l
  induction l with
  | nil => intro acc b h; exact Or.inl h
  | cons c t ih =>
    intro acc b h
    rcases ih (pickLatest phone acc c) b h with h1 | h2
    · by_cases hc : c.phone = phone
      · cases acc with
        | none =>
          simp only [pickLatest, if_pos hc] at h1
          injection h1 with hb
          subst hb
          exact Or.inr ⟨List.mem_cons_self c t, hc⟩
        | some a =>
          by_cases hle : a.created_at ≤ c.created_at
          · simp only [pickLatest, if_pos hc, if_pos hle] at h1
            injection h1 with hb
            subst hb
            exact Or.inr ⟨List.mem_cons_self c t, hc⟩
          · simp only [pickLatest, if_pos hc, if_neg hle] at h1
            exact Or.inl h1
      · simp only [pickLatest, if_neg hc] at h1
        exact Or.inl h1
    · exact Or.inr ⟨List.mem_cons_of_mem c h2.1, h2.2⟩

lemma latest_mem (phone : String) (l : List OTPChallenge) (b : OTPChallenge)
    (h : latest_for_phone phone l = some b) : b ∈ l ∧ b.phone = phone := by
  rcases latest_aux phone l none b h with h1 | h2
  · exact absurd h1 (by simp)
  · exact h2

lemma latest_append_newer (phone : String) (l : List OTPChallenge)
    (c : OTPChallenge) (hc : c.phone = phone)
    (h : ∀ b ∈ l, b.phone = phone → b.created_at ≤ c.created_at) :
    latest_for_phone phone (l ++ [c]) = some c := by
  unfold latest_for_phone
  rw [List.foldl_append]
  simp only [List.foldl_cons, List.foldl_nil]
  cases hl : l.foldl (pickLatest phone) none with
  | none => simp [pickLatest, hc]
  | some b =>
    have hb := latest_mem phone l b hl
    have hle : b.created_at ≤ c.created_at := h b hb.1 hb.2
    simp [pickLatest, hc, hle]

lemma findFarmer_append_none (l : List FarmerDoc) (x : FarmerDoc)
    (fid : String) (h : findFarmer l fid = none) (hx : x.farmer_id = fid) :
    findFarmer (l ++ [x]) fid = some x := by
  induction l with
  | nil => simp [findFarmer, List.find?, hx]
  | cons f t ih =>
    by_cases hf : f.farmer_id = fid
    · exfalso
      simp [findFarmer, List.find?, hf] at h
    · simp only [findFarmer, List.cons_append, List.find?] at h ⊢
      have hbeq : (f.farmer_id == fid) = false := by
        simp [hf]
      rw [hbeq] at h ⊢
      exact ih h

lemma findFarmer_updateFirst (l : List FarmerDoc) (fid : String)
    (g : FarmerDoc → FarmerDoc) (hg : ∀ f, (g f).farmer_id = f.farmer_id) :
    findFarmer (updateFirstFarmer l fid g) fid = (findFarmer l fid).map g := by
  induction l with
  | nil => rfl
  | cons f t ih =>
    by_cases hf : f.farmer_id = fid
    · have hbeq : (f.farmer_id == fid) = true := by simp [hf]
      have hbeq2 : ((g f).farmer_id == fid) = true := by simp [hg f, hf]
      simp only [updateFirstFarmer, if_pos hf, findFarmer, List.find?, hbeq,
        hbeq2]
      rfl
    · have hbeq : (f.farmer_id == fid) = false := by simp [hf]
      simp only [updateFirstFarmer, if_neg hf, findFarmer, List.find?, hbeq]
      exact ih

lemma findFarmer_upsert (farmers : List FarmerDoc) (p : OTPVerifyRequest)
    (fid : String) (now : Nat) :
    ∃ f, findFarmer (upsert_farmer farmers p fid now) fid = some f ∧
      f.phone = p.phone ∧ f.aadhaar = p.aadhaar ∧ f.language = p.language ∧
      f.name = p.name ∧ f.location = p.location := by
  unfold upsert_farmer
  cases hf : findFarmer farmers fid with
  | none =>
    refine ⟨newFarmer p fid, ?_, rfl, rfl, rfl, rfl, rfl⟩
    exact findFarmer_append_none farmers (newFarmer p fid) fid hf rfl
  | some f0 =>
    refine ⟨setFarmerFields p now f0, ?_, rfl, rfl, rfl, rfl, rfl⟩
    show findFarmer (updateFirstFarmer farmers fid (setFarmerFields p now))
      fid = some (setFarmerFields p now f0)
    rw [findFarmer_updateFirst farmers fid (setFarmerFields p now)
      (fun f => rfl), hf]
    rfl

lemma verify_otp_success_eq (db : DB) (p : OTPVerifyRequest) (tok : String)
    (now : Nat) (c : OTPChallenge)
    (hl : latest_for_phone p.phone db.otprequests = some c)
    (hotp : c.otp = p.otp)
    (hexp : isExpired c.expires_at now = false) :
    verify_otp db p tok now =
      ({ otprequests := db.otprequests,
         farmers := upsert_farmer db.farmers p (pyOrStr p.farmer_id p.phone) now,
         sessions := db.sessions ++
           [{ farmer_id := pyOrStr p.farmer_id p.phone, token := tok,
              created_at := now, expires_at := some (now + 7 * 24 * 3600) }] },
       Except.ok { token := tok, farmer_id := pyOrStr p.farmer_id p.phone,
                   expires_in := 7 * 24 * 3600 }) := by
  unfold verify_otp
  simp only [hl]
  rw [if_neg (by simp [hotp]), hexp]
  rfl

lemma verify_otp_error_state (db : DB) (p : OTPVerifyRequest) (tok : String)
    (now : Nat) (e : ApiError)
    (h : (verify_otp db p tok now).2 = Except.error e) :
    (verify_otp db p tok now).1 = db := by
  cases hl : latest_for_phone p.phone db.otprequests with
  | none => simp [verify_otp, hl]
  | some c =>
    by_cases hotp : c.otp ≠ p.otp
    · simp [verify_otp, hl, hotp]
    · cases hexp : isExpired c.expires_at now with
      | true => simp [verify_otp, hl, hotp, hexp]
      | false =>
        rw [verify_otp_success_eq db p tok now c hl (not_not.mp hotp) hexp]
          at h
        exact absurd h (by simp)

lemma verify_otp_ok (db : DB) (p : OTPVerifyRequest) (tok : String)
    (now : Nat) (r : TokenResponse)
    (h : (verify_otp db p tok now).2 = Except.ok r) :
    r.farmer_id = pyOrStr p.farmer_id p.phone ∧ r.token = tok ∧
    (verify_otp db p tok now).1.otprequests = db.otprequests ∧
    (verify_otp db p tok now).1.farmers =
      upsert_farmer db.farmers p (pyOrStr p.farmer_id p.phone) now ∧
    (verify_otp db p tok now).1.sessions = db.sessions ++
      [{ farmer_id := pyOrStr p.farmer_id p.phone, token := tok,
         created_at := now, expires_at := some (now + 7 * 24 * 3600) }] := by
  cases hl : latest_for_phone p.phone db.otprequests with
  | none => simp [verify_otp, hl] at h
  | some c =>
    by_cases hotp : c.otp ≠ p.otp
    · simp [verify_otp, hl, hotp] at h
    · cases hexp : isExpired c.expires_at now with
      | true => simp [verify_otp, hl, hotp, hexp] at h
      | false =>
        have hv := verify_otp_success_eq db p tok now c hl (not_not.mp hotp)
          hexp
        rw [hv] at h ⊢
        simp only [Except.ok.injEq] at h
        subst h
        exact ⟨rfl, rfl, rfl, rfl, rfl⟩

lemma pyOrStr_eq_canonical (fid : Option String) (phone : String) :
    pyOrStr fid phone = canonicalFid fid phone := by
  cases fid with
  | none => rfl
  | some s => by_cases h : s = "" <;> simp [pyOrStr, canonicalFid, h]

lemma pyReplace_pyReplace (l : List Char) :
    pyReplace (pyReplace l '0' '*') '1' '*' =
      l.map (fun c => if c = '0' ∨ c = '1' then '*' else c) := by
  simp only [pyReplace, List.map_map]
  congr 1
  funext c
  by_cases h0 : c = '0'
  · subst h0; decide
  · by_cases h1 : c = '1'
    · subst h1; decide
    · simp [Function.comp, h0, h1]

/-! ## C9 -/

/-- C9: the masked phone returned by `request_otp` keeps the last four
characters unchanged and rewrites the characters before them, replacing
exactly the characters `'0'` and `'1'` of that leading part by `'*'`. -/
theorem masked_phone_spec (phone : String) :
    (maskPhone phone).data.length = phone.data.length ∧
    (maskPhone phone).data.drop (phone.data.length - 4) =
      phone.data.drop (phone.data.length - 4) ∧
    (maskPhone phone).data.take (phone.data.length - 4) =
      (phone.data.take (phone.data.length - 4)).map
        (fun c => if c = '0' ∨ c = '1' then '*' else c) := by
  have hdata : (maskPhone phone).data =
      (phone.data.take (phone.data.length - 4)).map
        (fun c => if c = '0' ∨ c = '1' then '*' else c) ++
      phone.data.drop (phone.data.length - 4) := by
    simp [maskPhone, pyReplace_pyReplace]
  have hlen : ((phone.data.take (phone.data.length - 4)).map
      (fun c => if c = '0' ∨ c = '1' then '*' else c)).length =
      phone.data.length - 4 := by
    simp only [List.length_map, List.length_take]
    omega
  refine ⟨?_, ?_, ?_⟩
  · rw [hdata]
    simp only [List.length_append, List.length_drop, hlen]
    omega
  · rw [hdata, dropLen_append _ _ _ hlen]
  · rw [hdata, takeLen_append _ _ _ hlen]

/-! ## C10 -/

/-- C10: expiry is enforced only when an `expires_at` value is present.  A
session record without one validates at every time (never `SessionExpired`),
and a challenge without one never yields `CredentialExpired`. -/
theorem missing_expiry_never_expires :
    (∀ (db : DB) (tok : String) (now : Nat) (s : SessionDoc),
        findSession db.sessions tok = some s → s.expires_at = none →
        require_session db tok now = Except.ok s.farmer_id) ∧
    (∀ (db : DB) (p : OTPVerifyRequest) (tok : String) (now : Nat)
        (c : OTPChallenge),
        latest_for_phone p.phone db.otprequests = some c → c.expires_at = none →
        (verify_otp db p tok now).2 ≠ Except.error ApiError.otpExpired) := by
  constructor
  · intro db tok now s hs he
    simp [require_session, hs, isExpired, he]
  · intro db p tok now c hc he
    simp only [verify_otp, hc]
    by_cases hotp : c.otp = p.otp
    · simp [hotp, isExpired, he]
    · simp [hotp]

/-- Witness for C10 at a session and a challenge both lacking `expires_at`,
read a billion seconds after creation. -/
theorem missing_expiry_never_expires_witness :
    require_session dbC10a "tok" 1000000000 = Except.ok "F" ∧
    (verify_otp dbC10b payC10 "t2" 1000000000).2 ≠
      Except.error ApiError.otpExpired := by
  constructor
  · exact missing_expiry_never_expires.1 dbC10a "tok" 1000000000 sessC10 rfl rfl
  · exact missing_expiry_never_expires.2 dbC10b payC10 "t2" 1000000000 chalC10
      rfl rfl

/-! ## C5 -/

/-- C5: when the challenge resolved for the phone (if any) stores a code
different from the submitted one, or when no challenge exists at all,
verification fails with `InvalidCredential` — at every current time `now`,
in particular past expiry. -/
theorem wrong_code_invalid (db : DB) (p : OTPVerifyRequest) (tok : String)
    (now : Nat)
    (h : ∀ c, latest_for_phone p.phone db.otprequests = some c →
      c.otp ≠ p.otp) :
    (verify_otp db p tok now).2 = Except.error ApiError.invalidOtp := by
  cases hc : latest_for_phone p.phone db.otprequests with
  | none => simp [verify_otp, hc]
  | some c => simp [verify_otp, hc, h c hc]

/-- Witness for C5: stored code "483920", submitted "000000", read at a time
long past the challenge's expiry (10). -/
theorem wrong_code_invalid_witness :
    (verify_otp dbC5 payC5 "t" 1000).2 = Except.error ApiError.invalidOtp :=
  wrong_code_invalid dbC5 payC5 "t" 1000 (by
    intro c hc
    have h1 : latest_for_phone payC5.phone dbC5.otprequests = some chalC5 := by
      decide
    have h2 : some chalC5 = some c := h1 ▸ hc
    injection h2 with h3
    subst h3
    decide)

/-! ## C1 -/

/-- C1: the `disease_detect` handler never consults the Session Validator.
On a store with no sessions, `require_session` rejects the bearer token
"bogus", yet a disease-detect request carrying that same token is served a
full diagnosis instead of being denied. -/
theorem disease_detect_skips_session_validation :
    require_session dbC1 "bogus" 0 = Except.error ApiError.invalidToken ∧
    disease_detect [] (some "Paddy") (some "bogus") =
      { crop := some "Paddy",
        diagnosis := "Low confidence: image too small. Possible nutrient deficiency.",
        treatment := "Apply balanced micronutrient spray; retake a clearer photo." } :=
  ⟨rfl, rfl⟩

/-! ## C3 -/

/-- C3 counterexample: a challenge expiring at `E = 100`, verified with the
correct code exactly at time `100` (which is `≥ E`), does not fail with
`CredentialExpired` — it completes successfully, because the code tests
`expires_at < now` strictly. -/
theorem verify_at_expiry_succeeds :
    (verify_otp dbC3 payC3 "tok3" 100).2 =
      Except.ok { token := "tok3", farmer_id := "p3", expires_in := 604800 } :=
  rfl

/-- C3 (amended): verifying with the correct code fails with
`CredentialExpired` at every time strictly after the expiry `E`; at
`now = E` the challenge is still accepted. -/
theorem correct_code_expired_strictly_after (db : DB) (p : OTPVerifyRequest)
    (tok : String) (now : Nat) (c : OTPChallenge) (e : Nat)
    (hl : latest_for_phone p.phone db.otprequests = some c)
    (hotp : c.otp = p.otp) (he : c.expires_at = some e) (hlt : e < now) :
    (verify_otp db p tok now).2 = Except.error ApiError.otpExpired := by
  simp [verify_otp, hl, hotp, isExpired, he, hlt]

/-- Witness for the amended C3: the same challenge, verified one second after
its expiry. -/
theorem correct_code_expired_strictly_after_witness :
    (verify_otp dbC3 payC3 "tok3" 101).2 = Except.error ApiError.otpExpired :=
  correct_code_expired_strictly_after dbC3 payC3 "tok3" 101 chalC3 100
    (by decide) (by decide) (by decide) (by decide)

/-! ## C4 -/

/-- C4 counterexample: a session expiring at `E = 100`, validated exactly at
time `100` (which is `≥ E`), does not fail with `SessionExpired` — it
returns the bound farmer identifier, because the code tests
`expires_at < now` strictly. -/
theorem validate_at_expiry_succeeds :
    require_session dbC4 "tok4" 100 = Except.ok "F4" := rfl

/-- C4 (amended): for a session with expiry `E`, validating at any time
`≤ E` returns the bound farmer identifier, and validating at any time
strictly after `E` fails with `SessionExpired`. -/
theorem session_validation_boundary (db : DB) (tok : String) (now : Nat)
    (s : SessionDoc) (e : Nat)
    (hf : findSession db.sessions tok = some s) (he : s.expires_at = some e) :
    (now ≤ e → require_session db tok now = Except.ok s.farmer_id) ∧
    (e < now →
      require_session db tok now = Except.error ApiError.sessionExpired) := by
  constructor
  · intro h
    have h2 : ¬ e < now := by omega
    simp [require_session, hf, isExpired, he, h2]
  · intro h
    simp [require_session, hf, isExpired, he, h]

/-- Witness for the amended C4: the same session validated at its expiry
instant (accepted) and one second later (rejected). -/
theorem session_validation_boundary_witness :
    require_session dbC4 "tok4" 100 = Except.ok "F4" ∧
    require_session dbC4 "tok4" 101 = Except.error ApiError.sessionExpired :=
  ⟨(session_validation_boundary dbC4 "tok4" 100 sessC4 100 (by decide)
      (by decide)).1 (by decide),
   (session_validation_boundary dbC4 "tok4" 101 sessC4 100 (by decide)
      (by decide)).2 (by decide)⟩

/-! ## C2 -/

/-- C2: issuing a challenge for phone `P` (with any supplied optional farmer
identifier) and immediately verifying with the issued code succeeds, and the
response and the stored session are bound to the canonical farmer identifier
— the supplied identifier when non-empty, otherwise `P`.  The freshness
hypothesis says no pre-existing challenge for `P` was created later than the
new one. -/
theorem otp_roundtrip_binds_canonical_fid (db : DB)
    (phone otp tok : String)
    (fid aadhaar language name location : Option String) (t : Nat)
    (hfresh : ∀ c ∈ db.otprequests, c.phone = phone → c.created_at ≤ t) :
    ∃ db2 r,
      verify_otp
        (request_otp db { phone := phone, farmer_id := fid } otp t).1
        { phone := phone, otp := otp, farmer_id := fid, aadhaar := aadhaar,
          language := language, name := name, location := location }
        tok t = (db2, Except.ok r) ∧
      r.farmer_id = canonicalFid fid phone ∧ r.token = tok ∧
      r.expires_in = 604800 ∧
      ∃ sd ∈ db2.sessions, sd.token = tok ∧
        sd.farmer_id = canonicalFid fid phone := by
  have hdb1 : (request_otp db { phone := phone, farmer_id := fid }
      otp t).1.otprequests = db.otprequests ++
      [{ farmer_id := fid, phone := phone, otp := otp,
         expires_at := some (t + 5 * 60), verified := false,
         created_at := t }] := rfl
  have hl : latest_for_phone phone
      ((request_otp db { phone := phone, farmer_id := fid }
        otp t).1).otprequests =
      some { farmer_id := fid, phone := phone, otp := otp,
             expires_at := some (t + 5 * 60), verified := false,
             created_at := t } := by
    rw [hdb1]
    exact latest_append_newer phone db.otprequests _ rfl
      (fun b hb hbp => hfresh b hb hbp)
  have hexp : isExpired (some (t + 5 * 60)) t = false := by
    simp [isExpired]
  have hv := verify_otp_success_eq
    (request_otp db { phone := phone, farmer_id := fid } otp t).1
    { phone := phone, otp := otp, farmer_id := fid, aadhaar := aadhaar,
      language := language, name := name, location := location }
    tok t _ hl rfl hexp
  refine ⟨_, _, hv, pyOrStr_eq_canonical fid phone, rfl, rfl, ?_⟩
  refine ⟨{ farmer_id := pyOrStr fid phone, token := tok, created_at := t,
            expires_at := some (t + 7 * 24 * 3600) }, ?_, rfl,
          pyOrStr_eq_canonical fid phone⟩
  simp

/-- Witness for C2: empty store, phone "9876543210", supplied farmer
identifier "F2", issued code "483920", verified immediately at `t = 50`. -/
theorem otp_roundtrip_binds_canonical_fid_witness :
    ∃ db2 r,
      verify_otp
        (request_otp dbC2 { phone := "9876543210", farmer_id := some "F2" }
          "483920" 50).1
        { phone := "9876543210", otp := "483920", farmer_id := some "F2",
          aadhaar := none, language := some "en", name := none,
          location := none }
        "tok2" 50 = (db2, Except.ok r) ∧
      r.farmer_id = canonicalFid (some "F2") "9876543210" ∧
      r.token = "tok2" ∧ r.expires_in = 604800 ∧
      ∃ sd ∈ db2.sessions, sd.token = "tok2" ∧
        sd.farmer_id = canonicalFid (some "F2") "9876543210" :=
  otp_roundtrip_binds_canonical_fid dbC2 "9876543210" "483920" "tok2"
    (some "F2") none (some "en") none none 50
    (by intro c hc hp; exact absurd hc (List.not_mem_nil c))

/-! ## C6 -/

/-- C6: after issuing two challenges for the same phone (the second created
no earlier than the first, with a different code), verifying with the first
challenge's code fails with `InvalidCredential` at every time, and the
superseded first challenge is still stored — ignored, not deleted. -/
theorem only_latest_challenge_honored (db : DB) (phone c1 c2 tok : String)
    (f1 f2 av lv nv locv : Option String) (t1 t2 now : Nat)
    (hle : t1 ≤ t2) (hne : c1 ≠ c2)
    (hfresh : ∀ c ∈ db.otprequests, c.phone = phone → c.created_at ≤ t2) :
    (verify_otp
        (request_otp (request_otp db { phone := phone, farmer_id := f1 }
          c1 t1).1 { phone := phone, farmer_id := f2 } c2 t2).1
        { phone := phone, otp := c1, farmer_id := f1, aadhaar := av,
          language := lv, name := nv, location := locv }
        tok now).2 = Except.error ApiError.invalidOtp ∧
    { farmer_id := f1, phone := phone, otp := c1,
      expires_at := some (t1 + 5 * 60), verified := false,
      created_at := t1 } ∈
      (request_otp (request_otp db { phone := phone, farmer_id := f1 }
        c1 t1).1 { phone := phone, farmer_id := f2 } c2 t2).1.otprequests := by
  have hdb2 : (request_otp (request_otp db { phone := phone, farmer_id := f1 }
      c1 t1).1 { phone := phone, farmer_id := f2 } c2 t2).1.otprequests =
      (db.otprequests ++
        [{ farmer_id := f1, phone := phone, otp := c1,
           expires_at := some (t1 + 5 * 60), verified := false,
           created_at := t1 }]) ++
        [{ farmer_id := f2, phone := phone, otp := c2,
           expires_at := some (t2 + 5 * 60), verified := false,
           created_at := t2 }] := rfl
  have hl : latest_for_phone phone
      (request_otp (request_otp db { phone := phone, farmer_id := f1 }
        c1 t1).1 { phone := phone, farmer_id := f2 } c2 t2).1.otprequests =
      some { farmer_id := f2, phone := phone, otp := c2,
             expires_at := some (t2 + 5 * 60), verified := false,
             created_at := t2 } := by
    rw [hdb2]
    apply latest_append_newer phone _ _ rfl
    intro b hb hbp
    rcases List.mem_append.mp hb with h | h
    · exact hfresh b h hbp
    · rw [List.mem_singleton.mp h]
      exact hle
  constructor
  · unfold verify_otp
    simp only [hl]
    rw [if_pos (by simpa using fun h => hne h.symm)]
  · rw [hdb2]
    simp

/-- Witness for C6: two challenges for phone "9876543210" with codes
"111111" (at `t = 10`) then "222222" (at `t = 20`); the first code is
rejected at `t = 30` while the first challenge record is still stored. -/
theorem only_latest_challenge_honored_witness :
    (verify_otp
        (request_otp (request_otp dbC6
          { phone := "9876543210", farmer_id := none } "111111" 10).1
          { phone := "9876543210", farmer_id := none } "222222" 20).1
        { phone := "9876543210", otp := "111111", farmer_id := none,
          aadhaar := none, language := some "en", name := none,
          location := none }
        "tok6" 30).2 = Except.error ApiError.invalidOtp ∧
    { farmer_id := none, phone := "9876543210", otp := "111111",
      expires_at := some (10 + 5 * 60), verified := false,
      created_at := 10 } ∈
      (request_otp (request_otp dbC6
        { phone := "9876543210", farmer_id := none } "111111" 10).1
        { phone := "9876543210", farmer_id := none } "222222" 20).1.otprequests :=
  only_latest_challenge_honored dbC6 "9876543210" "111111" "222222" "tok6"
    none none none (some "en") none none 10 20 30 (by decide) (by decide)
    (by intro c hc hp; exact absurd hc (List.not_mem_nil c))

/-! ## C7 -/

/-- C7: verification is all-or-nothing.  When `verify_otp` fails, the store
is exactly as before the request — no profile created or updated, no session
created.  When it succeeds, a profile for the bound farmer identifier exists
in the resulting store and exactly one session record, bound to that
identifier and token, has been appended. -/
theorem verify_all_or_nothing (db : DB) (p : OTPVerifyRequest) (tok : String)
    (now : Nat) :
    (∀ e : ApiError, (verify_otp db p tok now).2 = Except.error e →
      (verify_otp db p tok now).1 = db) ∧
    (∀ r : TokenResponse, (verify_otp db p tok now).2 = Except.ok r →
      (∃ f, findFarmer ((verify_otp db p tok now).1).farmers r.farmer_id =
          some f ∧ f.phone = p.phone) ∧
      ((verify_otp db p tok now).1).sessions = db.sessions ++
        [{ farmer_id := r.farmer_id, token := r.token, created_at := now,
           expires_at := some (now + 7 * 24 * 3600) }]) := by
  constructor
  · intro e he
    exact verify_otp_error_state db p tok now e he
  · intro r hr
    obtain ⟨hrf, hrt, hom, hfm, hsm⟩ := verify_otp_ok db p tok now r hr
    constructor
    · obtain ⟨f, hf, hph, _, _, _, _⟩ :=
        findFarmer_upsert db.farmers p (pyOrStr p.farmer_id p.phone) now
      refine ⟨f, ?_, hph⟩
      rw [hfm, hrf]
      exact hf
    · rw [hsm, hrf, hrt]

/-- Witness for C7: on a store holding one challenge, a failing verification
(wrong code) leaves the store untouched, and a succeeding one yields both the
profile and the appended session. -/
theorem verify_all_or_nothing_witness :
    (verify_otp dbC7 payC7bad "t7" 5).1 = dbC7 ∧
    ((∃ f, findFarmer ((verify_otp dbC7 payC7good "t7" 5).1).farmers
        respC7.farmer_id = some f ∧ f.phone = payC7good.phone) ∧
      ((verify_otp dbC7 payC7good "t7" 5).1).sessions = dbC7.sessions ++
        [{ farmer_id := respC7.farmer_id, token := respC7.token,
           created_at := 5, expires_at := some (5 + 7 * 24 * 3600) }]) :=
  ⟨(verify_all_or_nothing dbC7 payC7bad "t7" 5).1 ApiError.invalidOtp rfl,
   (verify_all_or_nothing dbC7 payC7good "t7" 5).2 respC7 rfl⟩

/-! ## C8 -/

/-- C8: the upsert is a full overwrite.  After two successful verifications
bound to the same canonical farmer identifier, the stored profile's phone,
aadhaar, language, name and location are exactly the second request's values
(null included), with the update time stamped by the second request. -/
theorem upsert_full_overwrite (db : DB) (p1 p2 : OTPVerifyRequest)
    (tok1 tok2 : String) (n1 n2 : Nat) (r1 r2 : TokenResponse)
    (h1 : (verify_otp db p1 tok1 n1).2 = Except.ok r1)
    (h2 : (verify_otp (verify_otp db p1 tok1 n1).1 p2 tok2 n2).2 =
      Except.ok r2)
    (hfid : r1.farmer_id = r2.farmer_id) :
    ∃ f, findFarmer
        ((verify_otp (verify_otp db p1 tok1 n1).1 p2 tok2 n2).1).farmers
        r2.farmer_id = some f ∧
      f.phone = p2.phone ∧ f.aadhaar = p2.aadhaar ∧
      f.language = p2.language ∧ f.name = p2.name ∧
      f.location = p2.location ∧ f.updated_at = some n2 := by
  obtain ⟨hr1, _, _, hf1, _⟩ := verify_otp_ok db p1 tok1 n1 r1 h1
  obtain ⟨hr2, _, _, hf2, _⟩ :=
    verify_otp_ok (verify_otp db p1 tok1 n1).1 p2 tok2 n2 r2 h2
  have hfid2 : pyOrStr p1.farmer_id p1.phone = pyOrStr p2.farmer_id p2.phone := by
    rw [← hr1, hfid, hr2]
  obtain ⟨f0, hf0, _, _, _, _, _⟩ :=
    findFarmer_upsert db.farmers p1 (pyOrStr p2.farmer_id p2.phone) n1
  have hfound : findFarmer ((verify_otp db p1 tok1 n1).1).farmers
      (pyOrStr p2.farmer_id p2.phone) = some f0 := by
    rw [hf1, hfid2]
    exact hf0
  have hupd : upsert_farmer ((verify_otp db p1 tok1 n1).1).farmers p2
      (pyOrStr p2.farmer_id p2.phone) n2 =
      updateFirstFarmer ((verify_otp db p1 tok1 n1).1).farmers
        (pyOrStr p2.farmer_id p2.phone) (setFarmerFields p2 n2) := by
    unfold upsert_farmer
    rw [hfound]
  refine ⟨setFarmerFields p2 n2 f0, ?_, rfl, rfl, rfl, rfl, rfl, rfl⟩
  rw [hr2, hf2, hupd,
    findFarmer_updateFirst ((verify_otp db p1 tok1 n1).1).farmers
      (pyOrStr p2.farmer_id p2.phone) (setFarmerFields p2 n2) (fun f => rfl),
    hfound]
  rfl

/-- Witness for C8: two verifications for farmer "F8" on phone "98"; the
first supplies aadhaar/language/name/location values, the second replaces
them (mostly with null); the stored profile holds only the second's values. -/
theorem upsert_full_overwrite_witness :
    ∃ f, findFarmer
        ((verify_otp (verify_otp dbC8 payC8a "ta" 1).1 payC8b "tb" 2).1).farmers
        respC8b.farmer_id = some f ∧
      f.phone = payC8b.phone ∧ f.aadhaar = payC8b.aadhaar ∧
      f.language = payC8b.language ∧ f.name = payC8b.name ∧
      f.location = payC8b.location ∧ f.updated_at = some 2 :=
  upsert_full_overwrite dbC8 payC8a payC8b "ta" "tb" 1 2 respC8a respC8b
    rfl rfl rfl

end SmartCrop
